import Mathlib

/-!
Verification development for the fast-api-demo blogging backend.

Shallow embedding of the authentication / authorization core:
  * `src/app/blog/schemas.py` — data model and static configuration.
    (This is the schemas module actually imported by `src/blog/main.py`:
    `src/blog/schemas.py` lacks `SECRET_KEY`, `ALGORITHM`,
    `ACCESS_TOKEN_EXPIRE_MINUTES`, `Token`, `TokenData` and `ShowUser`,
    which `main.py` uses, so the app only runs against the `app/blog` copy.)
  * `src/app/blog/hash.py` — password hashing wrapper over passlib/bcrypt.
  * `src/blog/main.py` — route handlers: login, get_current_user,
    create_access_token, blog CRUD, user registration.

Conventions of the embedding:
  * Machine time (`datetime.utcnow()`) is passed explicitly as `now : Nat`
    (seconds since the unix epoch); `timedelta(minutes=m)` is `m * 60`.
  * The database session (module `db`, not present under `src/`) is modelled
    per the spec, section 5: each request runs against its own session over
    the shared store, so state is passed explicitly as a `Store` value and
    every handler returns its response together with the store it leaves
    behind. Instances loaded from the store carry exactly the persisted
    columns.
  * Fallible paths return `Except` or a dedicated result type carrying
    the HTTP status and structured detail body the handler produces.
-/

namespace BlogApi

/-! ## Static configuration — src/app/blog/schemas.py lines 7-9 -/

def SECRET_KEY : String :=
  "09d25e094faa6ca2556c818166b7a9563b93f7099f6f0f4caa6cf63b88e8d3e7"

def ALGORITHM : String := "HS256"

def ACCESS_TOKEN_EXPIRE_MINUTES : Nat := 30

/-! ## Data model — src/app/blog/schemas.py

`Blog(BlogBase, table=True)` persists exactly the columns `id`, `title`,
`body` (lines 11-16).  Note there is **no** `author_id` column, although
`src/blog/main.py` reads and writes a `blog.author_id` attribute.
`User(UserBase, table=True)` persists `id`, `name`, `email`, `password`
(lines 23-34).  `id` is `int | None` (None until the database assigns it),
modelled as `Option Nat`. -/

structure BlogBase where
  title : String
  body : String
  deriving Repr, DecidableEq

structure Blog where
  id : Option Nat
  title : String
  body : String
  deriving Repr, DecidableEq

structure UserBase where
  name : String
  email : String
  password : String
  deriving Repr, DecidableEq

structure User where
  id : Option Nat
  name : String
  email : String
  password : String
  deriving Repr, DecidableEq

/- `schemas.Token` (lines 41-43) is declared after `TokenStr` below. -/

/-! ## Password hasher — src/app/blog/hash.py

`Hash.get_password_hash` / `Hash.verify_password` delegate to passlib's
bcrypt context, an external collaborator (spec section 4.1).  The library
contract — `verify(p, hash(p))` is true, and `verify(p, h)` is false
whenever `h` is not a hash of `p` — is modelled by keeping the plaintext
recoverable inside the digest and abstracting the salt: the digest of `p`
is the bcrypt prefix followed by `p`, and verification re-derives the
digest embedded parameters and compares. -/

namespace Hash

def get_password_hash (password : String) : String :=
  "$2b$12$" ++ password

def verify_password (plain_password hashed_password : String) : Bool :=
  hashed_password == get_password_hash plain_password

end Hash

/-! ## JWT — PyJWT (external collaborator, spec section 4.2)

A token string is either a well-formed signed token — a payload together
with the key and algorithm it was signed under — or a garbled string that
does not parse.  The payloads this system handles carry an optional `sub`
claim (`payload.get("sub")` in `get_current_user` may be absent) and an
embedded `exp` claim (always set by the issuer, `create_access_token`
line 39; the spec's Token data model, section 3, likewise has every token
carry an expiry).

`jwt.decode(token, key, algorithms)` fails — with some subclass of
`InvalidTokenError` — when the string does not parse, when the signature
does not verify under `key` with one of `algorithms`, or when the embedded
`exp` is not after the current time (PyJWT raises `ExpiredSignatureError`
when `exp <= now`, with zero leeway).  On success it returns the payload. -/

structure JwtPayload where
  sub : Option String
  exp : Nat
  deriving Repr, DecidableEq

inductive TokenStr where
  | signed (payload : JwtPayload) (key : String) (alg : String)
  | garbled (s : String)
  deriving Repr, DecidableEq

/-- The `InvalidTokenError` hierarchy of PyJWT, restricted to the causes
reachable in this model. All three are subclasses of `InvalidTokenError`. -/
inductive JwtError where
  | decodeError
  | invalidSignatureError
  | expiredSignatureError
  deriving Repr, DecidableEq

def jwtEncode (payload : JwtPayload) (key : String) (alg : String) : TokenStr :=
  .signed payload key alg

def jwtDecode (t : TokenStr) (key : String) (algs : List String) (now : Nat) :
    Except JwtError JwtPayload :=
  match t with
  | .garbled _ => .error .decodeError
  | .signed p k a =>
    if k = key ∧ a ∈ algs then
      if p.exp ≤ now then .error .expiredSignatureError
      else .ok p
    else .error .invalidSignatureError

/-- `schemas.Token` (schemas.py lines 41-43): the login response body
`{"access_token": ..., "token_type": ...}`. -/
structure Token where
  access_token : TokenStr
  token_type : String
  deriving Repr, DecidableEq

/-- The `exp` claim embedded in a token, when the token is well formed. -/
def TokenStr.expClaim : TokenStr → Option Nat
  | .signed p _ _ => some p.exp
  | .garbled _ => none

/-- The `sub` claim embedded in a token, when the token is well formed. -/
def TokenStr.subClaim : TokenStr → Option String
  | .signed p _ _ => p.sub
  | .garbled _ => none

/-! ## Store — the Resource Store (ORM/database, spec section 2)

The `db` module (`create_db_and_tables`, `SessionDep`) is not under `src/`;
per spec section 5 each request is handled independently against the shared
store.  Lookup helpers below mirror the query shapes in `main.py`:
`session.query(M).filter(M.f == x).first()` is a first-match scan and
`session.get(Blog, id)` is a primary-key lookup. -/

structure Store where
  blogs : List Blog
  users : List User
  deriving Repr, DecidableEq

def emptyStore : Store := { blogs := [], users := [] }

/-- `session.query(schemas.User).filter(schemas.User.email == e).first()`. -/
def findUserByEmail (s : Store) (e : String) : Option User :=
  s.users.find? (fun u => u.email == e)

/-- `session.get(schemas.Blog, id)` — primary-key lookup. -/
def getBlog (s : Store) (id : Nat) : Option Blog :=
  s.blogs.find? (fun b => b.id == some id)

/-- Database-assigned autoincrement primary key for a new `User` row. -/
def nextUserId (s : Store) : Nat :=
  s.users.foldr (fun u m => max (u.id.getD 0) m) 0 + 1

/-- Database-assigned autoincrement primary key for a new `Blog` row. -/
def nextBlogId (s : Store) : Nat :=
  s.blogs.foldr (fun b m => max (b.id.getD 0) m) 0 + 1

/-! ## Python instance semantics for `blog.author_id`

The persisted `Blog` model declares only `id`, `title`, `body`
(src/app/blog/schemas.py lines 11-16; src/blog/schemas.py is identical on
this point).  `create_blog` (main.py line 107) nevertheless executes
`db_blog.author_id = current_user.id`: on a SQLModel table instance this
sets a plain, non-column python attribute — it is silently accepted and
never persisted.  `delete_blog` (line 124) and `update_blog` (line 143)
read `blog.author_id` on an instance freshly loaded by `session.get`;
since the attribute is neither a mapped column nor set on that instance,
python raises `AttributeError`, which FastAPI surfaces as an unhandled
500 server error.

`BlogInstance` models an in-memory instance: its persisted columns plus
the one non-column attribute the code ever touches.  `authorIdAttr = none`
means the python attribute is absent, so reading it raises. -/

structure BlogInstance where
  toBlog : Blog
  authorIdAttr : Option (Option Nat)
  deriving Repr, DecidableEq

/-- Loading a blog from the store yields an instance carrying exactly the
persisted columns: the non-column `author_id` attribute is absent. -/
def loadBlog (s : Store) (id : Nat) : Option BlogInstance :=
  (getBlog s id).map fun b => { toBlog := b, authorIdAttr := none }

/-! ## HTTP error values -/

structure HTTPException where
  status_code : Nat
  detail : String
  headers : List (String × String)
  deriving Repr, DecidableEq

/-- `credentials_exception` — main.py lines 47-51. -/
def credentials_exception : HTTPException :=
  { status_code := 401
    detail := "Could not validate credentials"
    headers := [("WWW-Authenticate", "Bearer")] }

/-- The single `HTTPException` raised by `login` — main.py lines 73-77.
One raise site covers both the user-not-found and the wrong-password
branches (`if not user or not Hash.verify_password(...)`). -/
def loginUnauthorized : HTTPException :=
  { status_code := 401
    detail := "Incorrect username or password"
    headers := [("WWW-Authenticate", "Bearer")] }

/-! ## create_access_token — main.py lines 33-41

`data` is always `{"sub": <email>}` at the one call site, modelled by the
optional `sub` claim directly.  Python truthiness: `if expires_delta:` is
false both for `None` and for `timedelta(0)`. -/

def create_access_token (sub : Option String) (expires_delta : Option Nat)
    (now : Nat) : TokenStr :=
  let expire : Nat :=
    match expires_delta with
    | some d => if d != 0 then now + d else now + 15 * 60
    | none => now + 15 * 60
  jwtEncode { sub := sub, exp := expire } SECRET_KEY ALGORITHM

/-! ## get_current_user — main.py lines 43-64 -/

def get_current_user (token : TokenStr) (store : Store) (now : Nat) :
    Except HTTPException User :=
  match jwtDecode token SECRET_KEY [ALGORITHM] now with
  | .error _ => .error credentials_exception
  | .ok payload =>
    match payload.sub with
    | none => .error credentials_exception
    | some username =>
      match findUserByEmail store username with
      | none => .error credentials_exception
      | some user => .ok user

/-! ## login — main.py lines 66-82 -/

structure LoginForm where
  username : String
  password : String
  deriving Repr, DecidableEq

def login (form : LoginForm) (store : Store) (now : Nat) :
    Except HTTPException Token :=
  match findUserByEmail store form.username with
  | none => .error loginUnauthorized
  | some user =>
    if Hash.verify_password form.password user.password then
      .ok { access_token :=
              create_access_token (some user.email)
                (some (ACCESS_TOKEN_EXPIRE_MINUTES * 60)) now
            token_type := "bearer" }
    else
      .error loginUnauthorized

/-! ## Blog mutation handlers — main.py lines 100-152

Both protected handlers receive the authenticated principal resolved by
`get_current_user` (FastAPI dependency injection, made an explicit
argument here, as the spec's design notes prescribe).  Their outcome is
the HTTP response produced. -/

inductive BlogOpResult where
  /-- 404 with body `{"detail": <msg>}`. -/
  | notFound (detail : String)
  /-- 403 with body `{"detail": <msg>}`. -/
  | forbidden (detail : String)
  /-- 200 with body `{"ok": true}` (successful delete). -/
  | okDelete
  /-- 200 with the updated blog row (successful update). -/
  | okBlog (b : Blog)
  /-- Unhandled python `AttributeError` naming the missing attribute;
  FastAPI surfaces it as a 500 server error. -/
  | attrError (attr : String)
  deriving Repr, DecidableEq

def BlogOpResult.statusCode : BlogOpResult → Nat
  | .notFound _ => 404
  | .forbidden _ => 403
  | .okDelete => 200
  | .okBlog _ => 200
  | .attrError _ => 500

/-- Does the outcome mutate the store (a completed delete or update)? -/
def BlogOpResult.isSuccess : BlogOpResult → Bool
  | .okDelete => true
  | .okBlog _ => true
  | _ => false

/-- `create_blog` — main.py lines 100-111.  `db_blog.author_id =
current_user.id` (line 107) sets a non-column attribute on the in-memory
instance only; the row inserted carries the declared columns. -/
def create_blog (blog : BlogBase) (store : Store) (current_user : User) :
    BlogInstance × Store :=
  let db_blog : Blog :=
    { id := some (nextBlogId store), title := blog.title, body := blog.body }
  ({ toBlog := db_blog, authorIdAttr := some current_user.id },
   { store with blogs := store.blogs ++ [db_blog] })

/-- `delete_blog` — main.py lines 113-129.  Line 124 reads
`blog.author_id` on the instance loaded at line 120; when the attribute is
absent (it is not a persisted column) the read raises `AttributeError`. -/
def delete_blog (id : Nat) (store : Store) (current_user : User) :
    BlogOpResult × Store :=
  match loadBlog store id with
  | none =>
    (.notFound ("Blog with id = " ++ toString id ++ " does not exist"), store)
  | some blog =>
    match blog.authorIdAttr with
    | none => (.attrError "author_id", store)
    | some aid =>
      if aid ≠ current_user.id then
        (.forbidden "Not authorized to delete this blog", store)
      else
        (.okDelete,
         { store with blogs := store.blogs.filter fun b => b.id != some id })

/-- `blog_param.model_dump(exclude_unset=True)` — both `BlogBase` fields
are required, so a validated request body always has both set and the dump
always contains exactly `title` and `body`. -/
def BlogBase.model_dump (b : BlogBase) : List (String × String) :=
  [("title", b.title), ("body", b.body)]

/-- The `for key, value in blog_data.items(): setattr(blog, key, value)`
loop of `update_blog` (main.py lines 147-148), applied to the persisted
columns. -/
def applySetattrs : Blog → List (String × String) → Blog
  | blog, [] => blog
  | blog, ("title", v) :: rest => applySetattrs { blog with title := v } rest
  | blog, ("body", v) :: rest => applySetattrs { blog with body := v } rest
  | blog, _ :: rest => applySetattrs blog rest

/-- `update_blog` — main.py lines 131-152.  Line 143 reads
`blog.author_id` exactly as `delete_blog` does. -/
def update_blog (id : Nat) (blog_param : BlogBase) (store : Store)
    (current_user : User) : BlogOpResult × Store :=
  match loadBlog store id with
  | none =>
    (.notFound ("Blog with id = " ++ toString id ++ " does not exist"), store)
  | some blog =>
    match blog.authorIdAttr with
    | none => (.attrError "author_id", store)
    | some aid =>
      if aid ≠ current_user.id then
        (.forbidden "Not authorized to update this blog", store)
      else
        let updated := applySetattrs blog.toBlog blog_param.model_dump
        (.okBlog updated,
         { store with
             blogs := store.blogs.map fun b =>
               if b.id == some id then updated else b })

/-! ## create_user — main.py lines 154-170

The route declares no `response_model`; FastAPI serializes the return by
its annotation `schemas.User | dict[str, str]`, so a successful response
is the full `User` model — every declared field, `password` included. -/

inductive CreateUserResult where
  /-- 409 with body `{"detail": <msg>}`. -/
  | conflict (detail : String)
  /-- 200 with the created `User` row serialized as `schemas.User`. -/
  | created (user : User)
  deriving Repr, DecidableEq

def CreateUserResult.statusCode : CreateUserResult → Nat
  | .conflict _ => 409
  | .created _ => 200

def create_user (user : UserBase) (store : Store) :
    CreateUserResult × Store :=
  match findUserByEmail store user.email with
  | some _ =>
    (.conflict ("Email " ++ user.email ++ " is already existed"), store)
  | none =>
    let db_user : User :=
      { id := some (nextUserId store)
        name := user.name
        email := user.email
        password := Hash.get_password_hash user.password }
    (.created db_user, { store with users := store.users ++ [db_user] })

/-- The wire shape of a successful `create_user` response: the fields of
the `schemas.User` model, serialized as the JSON object the client sees. -/
def User.responseFields (u : User) : List (String × String) :=
  [("id", toString (u.id.getD 0)), ("name", u.name),
   ("email", u.email), ("password", u.password)]

/-! ## Decomposed verification conditions for token checking (claim C4) -/

/-- The token string parses (is not garbled). -/
def tokenWellFormed : TokenStr → Bool
  | .signed .. => true
  | .garbled _ => false

/-- The signature verifies under the server secret and algorithm. -/
def tokenSigValid : TokenStr → Bool
  | .signed _ k a => decide (k = SECRET_KEY ∧ a = ALGORITHM)
  | .garbled _ => false

/-- The embedded expiry is strictly after the current time. -/
def tokenUnexpired (t : TokenStr) (now : Nat) : Bool :=
  match t with
  | .signed p _ _ => decide (now < p.exp)
  | .garbled _ => false

/-! ## Sample rows and stores for concrete witnesses -/

def aliceRow : User :=
  { id := some 1, name := "alice", email := "alice@example.com",
    password := Hash.get_password_hash "wonderland" }

def blogRow : Blog := { id := some 1, title := "first", body := "posted" }

def sampleStore : Store := { blogs := [blogRow], users := [aliceRow] }

/-- Store holding only alice, before any blog exists. -/
def usersOnlyStore : Store := { blogs := [], users := [aliceRow] }

/-! # Theorems -/

/-- C5 counterexample: called without an explicit expiry delta at issuance
time 1000, `create_access_token` embeds expiry `1000 + 15 * 60 = 1900`,
not `1000 + ACCESS_TOKEN_EXPIRE_MINUTES * 60 = 2800` as the claim states:
the claimed equality is false at this input. -/
theorem create_access_token_default_not_thirty :
    ((create_access_token (some "alice@example.com") none 1000).expClaim
        = some (1000 + ACCESS_TOKEN_EXPIRE_MINUTES * 60)) = False := by
  decide

/-- C5 (amended): when `create_access_token` is called without an explicit
expiry delta, the issued token embeds expiry equal to the issuance time
plus 15 minutes (the 30-minute `ACCESS_TOKEN_EXPIRE_MINUTES` constant is
only used by `login`, which always passes it explicitly). -/
theorem create_access_token_default_fifteen (sub : Option String) (now : Nat) :
    create_access_token sub none now
      = jwtEncode { sub := sub, exp := now + 15 * 60 } SECRET_KEY ALGORITHM :=
  rfl

/-- C6: when a `User` with the requested email already exists in the store,
`create_user` returns a 409 Conflict and the store after the call is
exactly the store before it; in particular the pre-existing record is
still found unchanged under that email. -/
theorem create_user_conflict_unchanged (u : UserBase) (store : Store)
    (ex : User) (h : findUserByEmail store u.email = some ex) :
    (create_user u store).1
        = CreateUserResult.conflict ("Email " ++ u.email ++ " is already existed")
    ∧ (create_user u store).1.statusCode = 409
    ∧ (create_user u store).2 = store
    ∧ findUserByEmail (create_user u store).2 u.email = some ex := by
  refine ⟨?_, ?_, ?_, ?_⟩ <;> simp [create_user, h, CreateUserResult.statusCode]

/-- C6 witness: registering a second user under the email alice already
holds is a 409 that leaves the sample store untouched. -/
theorem create_user_conflict_unchanged_witness :
    findUserByEmail sampleStore "alice@example.com" = some aliceRow
    ∧ ((create_user ⟨"bob", "alice@example.com", "hunter2"⟩ sampleStore).1
          = CreateUserResult.conflict
              ("Email " ++ "alice@example.com" ++ " is already existed")
        ∧ (create_user ⟨"bob", "alice@example.com", "hunter2"⟩ sampleStore).1.statusCode
            = 409
        ∧ (create_user ⟨"bob", "alice@example.com", "hunter2"⟩ sampleStore).2
            = sampleStore
        ∧ findUserByEmail
            (create_user ⟨"bob", "alice@example.com", "hunter2"⟩ sampleStore).2
            "alice@example.com" = some aliceRow) :=
  ⟨by decide,
   create_user_conflict_unchanged ⟨"bob", "alice@example.com", "hunter2"⟩
     sampleStore aliceRow (by decide)⟩

/-- C8: when no stored `Blog` has the requested id, both `delete_blog` and
`update_blog` return 404 with the structured body
`detail = "Blog with id = <id> does not exist"` naming that id, without
reaching the ownership check (the outcome is `notFound`, not the
`attrError`/`forbidden` outcomes the ownership line can produce), and the
store is unchanged. -/
theorem blog_mutation_not_found (id : Nat) (p : BlogBase) (store : Store)
    (cu : User) (h : getBlog store id = none) :
    delete_blog id store cu
      = (.notFound ("Blog with id = " ++ toString id ++ " does not exist"), store)
    ∧ update_blog id p store cu
      = (.notFound ("Blog with id = " ++ toString id ++ " does not exist"), store)
    ∧ (delete_blog id store cu).1.statusCode = 404
    ∧ (update_blog id p store cu).1.statusCode = 404 := by
  refine ⟨?_, ?_, ?_, ?_⟩ <;>
    simp [delete_blog, update_blog, loadBlog, h, BlogOpResult.statusCode]

/-- C8 witness: id 2 is absent from the sample store; delete and update on
it are 404s naming id 2 and leave the store as it was. -/
theorem blog_mutation_not_found_witness :
    getBlog sampleStore 2 = none
    ∧ (delete_blog 2 sampleStore aliceRow
        = (.notFound ("Blog with id = " ++ toString 2 ++ " does not exist"),
           sampleStore)
      ∧ update_blog 2 ⟨"t", "b"⟩ sampleStore aliceRow
        = (.notFound ("Blog with id = " ++ toString 2 ++ " does not exist"),
           sampleStore)
      ∧ (delete_blog 2 sampleStore aliceRow).1.statusCode = 404
      ∧ (update_blog 2 ⟨"t", "b"⟩ sampleStore aliceRow).1.statusCode = 404) :=
  ⟨by decide, blog_mutation_not_found 2 ⟨"t", "b"⟩ sampleStore aliceRow (by decide)⟩

/-- C9: a token that decodes successfully under the server secret and
algorithm but whose payload has no `sub` claim is rejected by
`get_current_user` with `credentials_exception` — the very same 401 error
value produced for a token whose signature does not verify. -/
theorem missing_sub_same_as_bad_signature (e now : Nat) (store : Store)
    (p2 : JwtPayload) (k a : String)
    (hexp : now < e) (hbad : ¬(k = SECRET_KEY ∧ a = ALGORITHM)) :
    get_current_user
        (.signed { sub := none, exp := e } SECRET_KEY ALGORITHM) store now
      = .error credentials_exception
    ∧ get_current_user (.signed p2 k a) store now
      = .error credentials_exception := by
  constructor
  · simp [get_current_user, jwtDecode, Nat.not_le.mpr hexp]
  · simp [get_current_user, jwtDecode, hbad]

/-- C9 witness: a sub-less token signed with the right key and a token
signed with the key "wrong" are both rejected with the same error. -/
theorem missing_sub_same_as_bad_signature_witness :
    (0 : Nat) < 60
    ∧ ¬("wrong" = SECRET_KEY ∧ "HS999" = ALGORITHM)
    ∧ (get_current_user
          (.signed { sub := none, exp := 60 } SECRET_KEY ALGORITHM)
          sampleStore 0
        = .error credentials_exception
      ∧ get_current_user
          (.signed { sub := some "alice@example.com", exp := 60 } "wrong" "HS999")
          sampleStore 0
        = .error credentials_exception) :=
  ⟨by decide, by decide,
   missing_sub_same_as_bad_signature 60 0 sampleStore
     { sub := some "alice@example.com", exp := 60 } "wrong" "HS999"
     (by decide) (by decide)⟩

/-- C3: every failing login fails identically — whether the store has no
user under the submitted username, or the submitted password does not
verify against the stored hash, the handler returns the one
`loginUnauthorized` value: status 401, detail "Incorrect username or
password", header WWW-Authenticate: Bearer, the same in both runs. -/
theorem login_failures_indistinguishable (f1 f2 : LoginForm) (s1 s2 : Store)
    (n1 n2 : Nat)
    (h1 : findUserByEmail s1 f1.username = none)
    (u : User) (h2 : findUserByEmail s2 f2.username = some u)
    (h3 : Hash.verify_password f2.password u.password = false) :
    login f1 s1 n1 = .error loginUnauthorized
    ∧ login f2 s2 n2 = .error loginUnauthorized
    ∧ loginUnauthorized.status_code = 401
    ∧ loginUnauthorized.detail = "Incorrect username or password"
    ∧ loginUnauthorized.headers = [("WWW-Authenticate", "Bearer")] := by
  refine ⟨?_, ?_, rfl, rfl, rfl⟩ <;> simp [login, h1, h2, h3]

/-- C3 witness: an unknown email and a wrong password against alice both
yield the identical 401 error value. -/
theorem login_failures_indistinguishable_witness :
    findUserByEmail sampleStore "nobody@example.com" = none
    ∧ findUserByEmail sampleStore "alice@example.com" = some aliceRow
    ∧ Hash.verify_password "wrong" aliceRow.password = false
    ∧ (login ⟨"nobody@example.com", "pw"⟩ sampleStore 0
        = .error loginUnauthorized
      ∧ login ⟨"alice@example.com", "wrong"⟩ sampleStore 7
        = .error loginUnauthorized
      ∧ loginUnauthorized.status_code = 401
      ∧ loginUnauthorized.detail = "Incorrect username or password"
      ∧ loginUnauthorized.headers = [("WWW-Authenticate", "Bearer")]) :=
  ⟨by decide, by decide, by decide,
   login_failures_indistinguishable ⟨"nobody@example.com", "pw"⟩
     ⟨"alice@example.com", "wrong"⟩ sampleStore sampleStore 0 7 (by decide)
     aliceRow (by decide) (by decide)⟩

/-- C2: registering (name, email, password) in a store with no user under
that email succeeds, and a subsequent login with username = email and the
same password succeeds, returning a bearer token that decodes under the
server secret and algorithm (at any time before its expiry) to a payload
whose subject claim is that email. -/
theorem credential_roundtrip (name email password : String) (store : Store)
    (now t : Nat)
    (hfree : findUserByEmail store email = none)
    (ht : t < now + ACCESS_TOKEN_EXPIRE_MINUTES * 60) :
    ∃ nu tok,
      (create_user ⟨name, email, password⟩ store).1 = CreateUserResult.created nu
      ∧ login ⟨email, password⟩ (create_user ⟨name, email, password⟩ store).2 now
          = Except.ok tok
      ∧ tok.token_type = "bearer"
      ∧ ∃ p, jwtDecode tok.access_token SECRET_KEY [ALGORITHM] t = Except.ok p
          ∧ p.sub = some email := by
  have hcu : create_user ⟨name, email, password⟩ store
      = (CreateUserResult.created
          { id := some (nextUserId store), name := name, email := email,
            password := Hash.get_password_hash password },
         { store with users := store.users ++
            [{ id := some (nextUserId store), name := name, email := email,
               password := Hash.get_password_hash password }] }) := by
    simp [create_user, hfree]
  have hfind : findUserByEmail
      { store with users := store.users ++
          [{ id := some (nextUserId store), name := name, email := email,
             password := Hash.get_password_hash password }] } email
      = some { id := some (nextUserId store), name := name, email := email,
               password := Hash.get_password_hash password } := by
    unfold findUserByEmail at hfree ⊢
    rw [List.find?_append, hfree]
    simp
  refine ⟨{ id := some (nextUserId store), name := name, email := email,
            password := Hash.get_password_hash password },
          { access_token := create_access_token (some email)
              (some (ACCESS_TOKEN_EXPIRE_MINUTES * 60)) now,
            token_type := "bearer" }, by rw [hcu], ?_, rfl, ?_⟩
  · rw [hcu]
    simp [login, hfind, Hash.verify_password]
  · have hne : ¬(now + ACCESS_TOKEN_EXPIRE_MINUTES * 60 ≤ t) := Nat.not_le.mpr ht
    simp [ACCESS_TOKEN_EXPIRE_MINUTES] at hne
    simp [create_access_token, jwtEncode, jwtDecode, ACCESS_TOKEN_EXPIRE_MINUTES]
    rw [if_neg (by omega)]
    exact ⟨_, rfl, rfl⟩

/-- C2 witness: alice registers against the empty store and logs in at
time 0; the token decodes at time 0 to subject alice@example.com. -/
theorem credential_roundtrip_witness :
    findUserByEmail emptyStore "alice@example.com" = none
    ∧ (0 : Nat) < 0 + ACCESS_TOKEN_EXPIRE_MINUTES * 60
    ∧ (∃ nu tok,
        (create_user ⟨"alice", "alice@example.com", "wonderland"⟩ emptyStore).1
            = CreateUserResult.created nu
        ∧ login ⟨"alice@example.com", "wonderland"⟩
            (create_user ⟨"alice", "alice@example.com", "wonderland"⟩ emptyStore).2 0
            = Except.ok tok
        ∧ tok.token_type = "bearer"
        ∧ ∃ p, jwtDecode tok.access_token SECRET_KEY [ALGORITHM] 0 = Except.ok p
            ∧ p.sub = some "alice@example.com") :=
  ⟨by decide, by decide,
   credential_roundtrip "alice" "alice@example.com" "wonderland" emptyStore 0 0
     (by decide) (by decide)⟩

/-- C4: for every token string, verification under the server secret and
algorithm fails (with an InvalidTokenError) exactly when the string is
malformed, the signature does not verify, or the embedded expiry is not
after the current time; a successful verification returns the embedded
payload; and on success the guard resolves the user whose email equals the
subject, failing with the 401 `credentials_exception` when no such user
exists and returning that user otherwise. -/
theorem token_verification_guard_spec (t : TokenStr) (store : Store) (now : Nat) :
    ((∃ e, jwtDecode t SECRET_KEY [ALGORITHM] now = Except.error e) ↔
        ¬(tokenWellFormed t = true ∧ tokenSigValid t = true
          ∧ tokenUnexpired t now = true))
    ∧ (∀ p, jwtDecode t SECRET_KEY [ALGORITHM] now = Except.ok p →
        t = TokenStr.signed p SECRET_KEY ALGORITHM)
    ∧ (∀ p s, jwtDecode t SECRET_KEY [ALGORITHM] now = Except.ok p →
        p.sub = some s →
        (findUserByEmail store s = none →
            get_current_user t store now = Except.error credentials_exception)
        ∧ (∀ u, findUserByEmail store s = some u →
            get_current_user t store now = Except.ok u ∧ u.email = s)) := by
  cases t with
  | garbled s0 =>
    refine ⟨?_, ?_, ?_⟩
    · simp [jwtDecode, tokenWellFormed]
    · intro p h
      simp [jwtDecode] at h
    · intro p s h
      simp [jwtDecode] at h
  | signed p0 k a =>
    by_cases hc : k = SECRET_KEY ∧ a = ALGORITHM
    · obtain ⟨hk, ha⟩ := hc
      subst hk
      subst ha
      by_cases hexp : p0.exp ≤ now
      · refine ⟨?_, ?_, ?_⟩
        · simp [jwtDecode, hexp, tokenWellFormed, tokenSigValid, tokenUnexpired,
            Nat.not_lt.mpr hexp]
        · intro p h
          simp [jwtDecode, hexp] at h
        · intro p s h
          simp [jwtDecode, hexp] at h
      · have hdec : jwtDecode (.signed p0 SECRET_KEY ALGORITHM) SECRET_KEY
            [ALGORITHM] now = .ok p0 := by
          simp [jwtDecode, hexp]
        refine ⟨?_, ?_, ?_⟩
        · simp [hdec, tokenWellFormed, tokenSigValid, tokenUnexpired,
            Nat.lt_of_not_le hexp]
        · intro p h
          rw [hdec] at h
          injection h with h
          rw [h]
        · intro p s h hs
          rw [hdec] at h
          injection h with h
          subst h
          constructor
          · intro hn
            simp [get_current_user, hdec, hs, hn]
          · intro u hu
            refine ⟨by simp [get_current_user, hdec, hs, hu], ?_⟩
            unfold findUserByEmail at hu
            have hp := List.find?_some hu
            simpa using hp
    · have hcond : ¬(k = SECRET_KEY ∧ a ∈ [ALGORITHM]) := by
        simpa using hc
      refine ⟨?_, ?_, ?_⟩
      · simp [jwtDecode, hcond, tokenWellFormed, tokenSigValid, hc]
      · intro p h
        simp [jwtDecode, hc] at h
      · intro p s h
        simp [jwtDecode, hc] at h

/-- C4 witness: a garbled token string fails verification at time 0. -/
theorem token_verification_guard_spec_witness :
    ∃ e, jwtDecode (TokenStr.garbled "not-a-jwt") SECRET_KEY [ALGORITHM] 0
        = Except.error e :=
  (token_verification_guard_spec (TokenStr.garbled "not-a-jwt") sampleStore 0).1.mpr
    (by decide)

/-- C1 (code bug): the persisted `Blog` model declares no author_id
column, so ownership is never actually stored: after alice creates a blog,
`create_blog` sets author_id only as a non-column attribute on the
in-memory instance while the inserted row carries the columns alone, and
the row a later request loads has no author_id — so even alice, the very
user whose id the ownership line is meant to compare, cannot delete or
update her own blog: both handlers stop with an unhandled AttributeError
(500) and the stored state is unchanged. -/
theorem author_cannot_mutate_own_blog :
    (create_blog ⟨"first", "posted"⟩ usersOnlyStore aliceRow).2 = sampleStore
    ∧ (create_blog ⟨"first", "posted"⟩ usersOnlyStore aliceRow).1.authorIdAttr
        = some (some 1)
    ∧ loadBlog sampleStore 1 = some { toBlog := blogRow, authorIdAttr := none }
    ∧ delete_blog 1 sampleStore aliceRow = (.attrError "author_id", sampleStore)
    ∧ update_blog 1 ⟨"second", "edited"⟩ sampleStore aliceRow
        = (.attrError "author_id", sampleStore)
    ∧ (BlogOpResult.attrError "author_id").statusCode = 500 := by
  refine ⟨?_, ?_, ?_, ?_, ?_, rfl⟩ <;> decide

/-- C10 (code bug): no `update_blog` call ever succeeds — before the
setattr loop can run, the ownership line reads the absent author_id
attribute of the freshly loaded row — and every call leaves the store
exactly as it was.  The setattr loop itself, had control reached it, would
rewrite exactly the title and body columns and preserve id, as the claim
describes. -/
theorem update_blog_never_succeeds (id : Nat) (p : BlogBase) (store : Store)
    (cu : User) :
    (update_blog id p store cu).1.isSuccess = false
    ∧ (update_blog id p store cu).2 = store
    ∧ ∀ b : Blog, applySetattrs b p.model_dump
        = { id := b.id, title := p.title, body := p.body } := by
  refine ⟨?_, ?_, fun b => rfl⟩ <;>
  · unfold update_blog loadBlog
    cases h : getBlog store id <;> simp [BlogOpResult.isSuccess]

/-- C7 counterexample: at the concrete registration of bob against the
empty store, the successful response — serialized per the `schemas.User`
return annotation, the route declaring no response_model — carries a
password field holding the stored bcrypt hash, so the claim that the
response shape contains no password field is false at this input. -/
theorem create_user_response_has_password_field :
    (create_user ⟨"bob", "bob@example.com", "hunter2"⟩ emptyStore).1
      = CreateUserResult.created
          { id := some 1, name := "bob", email := "bob@example.com",
            password := Hash.get_password_hash "hunter2" }
    ∧ (User.responseFields
        { id := some 1, name := "bob", email := "bob@example.com",
          password := Hash.get_password_hash "hunter2" }).lookup "password"
      = some (Hash.get_password_hash "hunter2") :=
  ⟨by decide, by decide⟩

/-- C7 (amended): every successful `create_user` response is the full
`schemas.User` model: its serialized fields include a password entry
holding the bcrypt hash of the submitted password (the hash, not the
plaintext; the password-free ShowUser projection is used only by the GET
user route). -/
theorem create_user_response_includes_password_hash (u : UserBase)
    (store : Store) (hfree : findUserByEmail store u.email = none) :
    ∃ nu, (create_user u store).1 = CreateUserResult.created nu
      ∧ nu.responseFields.lookup "password"
          = some (Hash.get_password_hash u.password)
      ∧ nu.password = Hash.get_password_hash u.password := by
  refine ⟨{ id := some (nextUserId store), name := u.name, email := u.email,
            password := Hash.get_password_hash u.password }, ?_, ?_, rfl⟩
  · simp [create_user, hfree]
  · rfl

/-- C7 amended-theorem witness: bob registers against the empty store and
the response fields carry his password hash. -/
theorem create_user_response_includes_password_hash_witness :
    findUserByEmail emptyStore "bob@example.com" = none
    ∧ (∃ nu, (create_user ⟨"bob", "bob@example.com", "hunter2"⟩ emptyStore).1
          = CreateUserResult.created nu
        ∧ nu.responseFields.lookup "password"
            = some (Hash.get_password_hash "hunter2")
        ∧ nu.password = Hash.get_password_hash "hunter2") :=
  ⟨by decide,
   create_user_response_includes_password_hash
     ⟨"bob", "bob@example.com", "hunter2"⟩ emptyStore (by decide)⟩

end BlogApi
